import Mathlib

/-!
Verification of the Roam search plugin (`src/plugins/search_plugin/search.py`):
the rank function, configuration validation, the index-build feature
extraction, and the query engine, shallowly embedded from the source.

Machine integers from the matchinfo blob are modelled as naturals (the blob
is specified as unsigned 32-bit values); Python's float weight arithmetic is
modelled over `ℚ` (the weights actually used, `(1., .1, 0, 0)`, are exact).
-/

namespace RoamSearch

/-! ### Rank function (`make_rank_func` / `rank`, search.py lines 25-38) -/

/-- Consecutive triples of a list, mirroring Python's `zip(it, it, it)`
over one shared iterator: three values are consumed per tuple and a
trailing remainder of fewer than three values is dropped. -/
def groupTriples : List ℕ → List (ℕ × ℕ × ℕ)
  | a :: b :: c :: rest => (a, b, c) :: groupTriples rest
  | _ => []

/-- Embeds `rank(matchinfo)` from `make_rank_func(weights)`.  The argument
is the matchinfo blob after `struct.unpack`, i.e. a list of 32-bit
unsigned values.  The first two values are skipped (`matchinfo[2:]`), the
rest is grouped into triples `x`, zipped with `weights`, and the generator
`sum(x[0]*w/x[1] ... if x[1])` accumulates `x[0]*w/x[1]` over exactly the
pairs whose middle component `x[1]` is nonzero. -/
def rank (weights : List ℚ) (matchinfo : List ℕ) : ℚ :=
  ((groupTriples (matchinfo.drop 2)).zip weights).foldl
    (fun acc p => if p.1.2.1 ≠ 0 then acc + (p.1.1 : ℚ) * p.2 / (p.1.2.1 : ℚ) else acc) 0

/-- The same sum written as the specification phrases it (map then sum):
each zipped position contributes `hits_in_row * weight / hits_total_docs`,
and a position whose `hits_total_docs` is zero contributes exactly 0.  The
divisor is the middle component of the triple, i.e. the total number of
hits in all documents, not the document count. -/
def rankSpecTotalHits (weights : List ℚ) (matchinfo : List ℕ) : ℚ :=
  (((groupTriples (matchinfo.drop 2)).zip weights).map
    (fun p => if p.1.2.1 = 0 then 0 else (p.1.1 : ℚ) * p.2 / (p.1.2.1 : ℚ))).sum

lemma rank_foldl_eq_sum (f : (ℕ × ℕ × ℕ) × ℚ → ℚ) :
    ∀ (l : List ((ℕ × ℕ × ℕ) × ℚ)) (a : ℚ),
      l.foldl (fun acc p => if p.1.2.1 ≠ 0 then acc + f p else acc) a
        = a + (l.map (fun p => if p.1.2.1 = 0 then 0 else f p)).sum
  | [], a => by simp
  | p :: l, a => by
    rw [List.foldl_cons, List.map_cons, List.sum_cons]
    by_cases h : p.1.2.1 = 0
    · rw [if_neg (not_not_intro h), if_pos h, rank_foldl_eq_sum f l, zero_add]
    · rw [if_pos h, if_neg h, rank_foldl_eq_sum f l, add_assoc]

/-- C1 (counterexample): for the matchinfo `[_, _, 5, 10, 2]` (one
position with hits_in_row = 5, hits_total_docs = 10,
docs_containing_term = 2) and weight vector `[1]`, the code returns
`5 * 1 / 10 = 1/2`, not the claimed `5 * 1 / 2 = 5/2`: the division is by
the middle triple component (total hits), not by the document count. -/
theorem C1_counterexample :
    rank [1] [7, 3, 5, 10, 2] = 1 / 2 ∧ rank [1] [7, 3, 5, 10, 2] ≠ 5 / 2 := by
  constructor <;> norm_num [rank, groupTriples]

/-- C1 (amended): the rank function returns the sum over zipped positions
of `hits_in_row × weight / hits_total_docs`, where a position whose
`hits_total_docs` (the middle component of its matchinfo triple) is 0
contributes exactly 0 instead of raising; in particular for matchinfo
`[_, _, 5, 10, 2]` and weight `1.0` the result is `0.5`. -/
theorem C1_rank_divides_by_total_hits :
    (∀ weights matchinfo, rank weights matchinfo = rankSpecTotalHits weights matchinfo) ∧
    (∀ r0 r1 : ℕ, rank [1] [r0, r1, 5, 10, 2] = 1 / 2) ∧
    (∀ r0 r1 : ℕ, rank [1] [r0, r1, 5, 0, 2] = 0) := by
  refine ⟨fun weights matchinfo => ?_, fun r0 r1 => ?_, fun r0 r1 => ?_⟩
  · unfold rank rankSpecTotalHits
    rw [rank_foldl_eq_sum, zero_add]
  · norm_num [rank, groupTriples]
  · norm_num [rank, groupTriples]

/-! ### Configuration validation (`valid_search_settings`, lines 128-135) -/

/-- A layer-entry of the `search` settings block: the layer-selector name
paired with the value of its `columns` key, `none` when the key is absent
(the Python code reads `layerconfig['columns']`, raising `KeyError` when
missing). -/
abbrev LayerEntry := String × Option (List String)

/-- Project settings as seen by `valid_search_settings`: the optional
`search` block (`settings['search']` raises `KeyError` when absent), a
mapping from layer-selector to layer-entry. -/
structure ProjectSettings where
  search : Option (List LayerEntry)
deriving DecidableEq

/-- Embeds `valid_search_settings(settings)`: reads `settings['search']`,
touches `layerconfig['columns']` for every entry, and returns
`(True, settings)`; any `KeyError` along the way (missing `search` block,
or any entry without a `columns` key) is caught and yields `(False, {})`.
No condition on the contents of a present `columns` list is checked. -/
def valid_search_settings (settings : ProjectSettings) :
    Bool × List LayerEntry :=
  match settings.search with
  | none => (false, [])
  | some s => if s.all (fun e => e.2.isSome) then (true, s) else (false, [])

/-- The acceptance condition claimed by the specification: every
layer-entry carries a `columns` key whose list is non-empty. -/
def entryNonEmptyColumns (e : LayerEntry) : Bool :=
  match e.2 with
  | some (_ :: _) => true
  | _ => false

/-- C5 (counterexample): a configuration whose single layer-entry has an
empty `columns` list is accepted by `valid_search_settings`, although the
claim requires every entry's `columns` list to be non-empty for
acceptance: validation only checks that the key exists. -/
theorem C5_counterexample :
    (valid_search_settings ⟨some [("roads", some [])]⟩).1 = true ∧
    [("roads", some [])].all entryNonEmptyColumns = false := by
  constructor <;> rfl

/-- C5 (amended): validation is fail-closed over the presence of the
structure only: a configuration is accepted iff it has a `search` block
and every layer-entry has a `columns` key (the list may be empty); if any
entry lacks the key, the whole configuration is reported invalid and the
returned settings mapping is empty, so the indexed-field union drawn from
it is empty. -/
theorem C5_accepts_iff_columns_key_present :
    ∀ settings : ProjectSettings,
      ((valid_search_settings settings).1 = true ↔
        ∃ s, settings.search = some s ∧ s.all (fun e => e.2.isSome) = true) ∧
      ((valid_search_settings settings).1 = false →
        (valid_search_settings settings).2 = []) := by
  intro settings
  cases hs : settings.search with
  | none =>
    have he : valid_search_settings settings = (false, []) := by
      unfold valid_search_settings; rw [hs]
    rw [he]
    refine ⟨⟨fun hf => Bool.noConfusion hf, ?_⟩, fun _ => rfl⟩
    rintro ⟨s, hsome, _⟩
    cases hsome
  | some s =>
    have he : valid_search_settings settings
        = if s.all (fun e => e.2.isSome) then (true, s) else (false, []) := by
      unfold valid_search_settings; rw [hs]
    by_cases h : s.all (fun e => e.2.isSome) = true
    · rw [he, if_pos h]
      exact ⟨⟨fun _ => ⟨s, rfl, h⟩, fun _ => rfl⟩, fun hf => Bool.noConfusion hf⟩
    · rw [he, if_neg h]
      refine ⟨⟨fun hf => Bool.noConfusion hf, ?_⟩, fun _ => rfl⟩
      rintro ⟨s', hsome, hall⟩
      cases hsome
      exact absurd hall h

/-- C5 (witness for the amended theorem): at the concrete configuration
with no `search` block, validation rejects and returns the empty mapping. -/
theorem C5_amended_witness : (valid_search_settings ⟨none⟩).2 = [] :=
  (C5_accepts_iff_columns_key_present ⟨none⟩).2 rfl

/-! ### Full-text table schema (`get_columns`, lines 58-66) -/

/-- Embeds the quoting `'"{}"'.format(c)` applied to every column name
before it is used as a schema column or insert key. -/
def quoteId (c : String) : String := "\"" ++ c ++ "\""

/-- One validated index-configuration entry as consumed by
`IndexBuilder.build_index`: the layer-selector name and its `columns`
list. -/
abbrev ConfigEntry := String × List String

/-- Embeds `get_columns()`: a set of quoted column names collected from
every entry's `columns` list (`for config in indexconfig.values(): for c
in config['columns']: columns.add(...)`), modelled as a `Finset` since
Python's `set` is unordered. -/
def get_columns (indexconfig : List ConfigEntry) : Finset String :=
  indexconfig.foldl (fun cols e => e.2.foldl (fun cs c => insert (quoteId c) cs) cols) ∅

lemma mem_foldl_insert_quote (cols : List String) :
    ∀ (acc : Finset String) (s : String),
      s ∈ cols.foldl (fun cs c => insert (quoteId c) cs) acc ↔
        s ∈ acc ∨ ∃ c ∈ cols, s = quoteId c := by
  induction cols with
  | nil => simp
  | cons c cols ih =>
    intro acc s
    rw [List.foldl_cons, ih]
    simp only [Finset.mem_insert, List.mem_cons]
    constructor
    · rintro (⟨h | h⟩ | ⟨d, hd, hq⟩)
      · exact Or.inr ⟨c, Or.inl rfl, h⟩
      · exact Or.inl h
      · exact Or.inr ⟨d, Or.inr hd, hq⟩
    · rintro (h | ⟨d, hd | hd, hq⟩)
      · exact Or.inl (Or.inr h)
      · exact Or.inl (Or.inl (hd ▸ hq))
      · exact Or.inr ⟨d, hd, hq⟩

lemma mem_get_columns_foldl (cfg : List ConfigEntry) :
    ∀ (acc : Finset String) (s : String),
      s ∈ cfg.foldl (fun cols e => e.2.foldl (fun cs c => insert (quoteId c) cs) cols) acc ↔
        s ∈ acc ∨ ∃ e ∈ cfg, ∃ c ∈ e.2, s = quoteId c := by
  induction cfg with
  | nil => simp
  | cons e cfg ih =>
    intro acc s
    rw [List.foldl_cons, ih, mem_foldl_insert_quote]
    simp only [List.mem_cons]
    constructor
    · rintro (⟨h | ⟨c, hc, hq⟩⟩ | ⟨f, hf, c, hc, hq⟩)
      · exact Or.inl h
      · exact Or.inr ⟨e, Or.inl rfl, c, hc, hq⟩
      · exact Or.inr ⟨f, Or.inr hf, c, hc, hq⟩
    · rintro (h | ⟨f, hf | hf, c, hc, hq⟩)
      · exact Or.inl (Or.inl h)
      · exact Or.inl (Or.inr ⟨c, hf ▸ hc, hq⟩)
      · exact Or.inr ⟨f, hf, c, hc, hq⟩

/-- C7: the column set of the full-text `search` table created by the
index build is exactly the union, over all configured layer-entries, of
the (quoted) configured column names: a (rendered) name is a schema
column iff some entry configures it.  The schema depends only on the
configuration, never on which layers actually carry the column. -/
theorem C7_schema_is_union_of_configured_columns :
    ∀ (cfg : List ConfigEntry) (s : String),
      s ∈ get_columns cfg ↔ ∃ e ∈ cfg, ∃ c ∈ e.2, s = quoteId c := by
  intro cfg s
  unfold get_columns
  rw [mem_get_columns_foldl]
  simp

/-! ### Feature extraction (`get_features` / `get_data`, lines 68-105) -/

/-- A feature of a vector layer: its feature id (`feature.id()`) and its
attribute values, already string-coerced as `str(feature[field])` would
render them. -/
structure Feature where
  fid : ℤ
  attrs : List (String × String)
deriving DecidableEq

/-- A loaded vector layer as the builder sees it: `layer.name()`,
`[field.name() for field in layer.fields()]`, and `layer.getFeatures()`
in enumeration order. -/
structure Layer where
  name : String
  fields : List String
  features : List Feature
deriving DecidableEq

/-- Modelled from the spec: `roam.api.utils.layer_by_name` (the layer-data
collaborator, not under `src/`) resolves a name to exactly one loaded
layer, and resolution can fail when no loaded layer has that name — the
call site catches `IndexError` from it; `none` models that failure. -/
def layer_by_name (loaded : List Layer) (name : String) : Option Layer :=
  (loaded.filter (fun l => l.name == name)).head?

/-- Embeds `str(feature[field])` for a field of the layer: the rendered
attribute value, an unset attribute rendering as `"NULL"`. -/
def featureValue (f : Feature) (field : String) : String :=
  (((f.attrs.find? (fun a => a.1 == field)).map Prod.snd).getD "NULL")

/-- Embeds `set(layerfields) & set(configfields)`, enumerated in
layer-field order (Python's set is unordered; only membership and
emptiness are consumed downstream). -/
def intersectFields (layerfields configfields : List String) : List String :=
  layerfields.filter (fun f => configfields.contains f)

/-- One record yielded by the extractor: the synthetic counter value, the
layer name, the source feature id, and the quoted-column to
`"field: value"` rendering map. -/
structure FeatureRecord where
  count : ℕ
  layerName : String
  fid : ℤ
  data : List (String × String)
deriving DecidableEq

/-- Embeds the feature loop of `get_data`: for each feature, build
`data = {'"field"': "field: value" for field in fields}`, skip the feature
when `data` is empty (`if not data: continue`), otherwise increment the
counter and yield.  Returns the yielded records together with the final
counter value (the last yielded `count`, which the caller writes back into
`rowid`). -/
def get_data_go (lname : String) (fields : List String) :
    List Feature → ℕ → List FeatureRecord × ℕ
  | [], rowid => ([], rowid)
  | f :: fs, rowid =>
    let data := fields.map (fun field => (quoteId field, field ++ ": " ++ featureValue f field))
    if data.isEmpty then get_data_go lname fields fs rowid
    else
      let rest := get_data_go lname fields fs (rowid + 1)
      (⟨rowid + 1, lname, f.fid, data⟩ :: rest.1, rest.2)

/-- Embeds `get_data(layer, config, rowid)`: intersect the layer's fields
with the configured columns, yield nothing if the intersection is empty,
otherwise run the feature loop from the caller's current counter. -/
def get_data (layer : Layer) (configColumns : List String) (rowid : ℕ) :
    List FeatureRecord × ℕ :=
  let fields := intersectFields layer.fields configColumns
  if fields.isEmpty then ([], rowid)
  else get_data_go layer.name fields layer.features rowid

/-- Embeds the `_all` branch of `get_features`: every loaded vector layer
is processed in layer-enumeration order, the shared counter threading from
one layer into the next. -/
def build_all_layers (cols : List String) :
    List Layer → ℕ → List FeatureRecord × ℕ
  | [], rowid => ([], rowid)
  | l :: ls, rowid =>
    let d := get_data l cols rowid
    let rest := build_all_layers cols ls d.2
    (d.1 ++ rest.1, rest.2)

/-- The body of the `get_features` loop for one configuration entry: the
`_all` sentinel expands to every loaded vector layer; a named selector is
resolved with `layer_by_name`, and the `IndexError` of an unresolvable
name is caught and the entry skipped (`continue` — no records, counter
unchanged). -/
def entry_records (loaded : List Layer) (e : ConfigEntry) (rowid : ℕ) :
    List FeatureRecord × ℕ :=
  if e.1 = "_all" then build_all_layers e.2 loaded rowid
  else
    match layer_by_name loaded e.1 with
    | none => ([], rowid)
    | some l => get_data l e.2 rowid

/-- Embeds `get_features()`: iterate the validated configuration entries
in order, running `entry_records` on each; the single counter `rowid`
(starting at 0) is threaded through all entries. -/
def get_features (loaded : List Layer) :
    List ConfigEntry → ℕ → List FeatureRecord × ℕ
  | [], rowid => ([], rowid)
  | e :: rest, rowid =>
    let d := entry_records loaded e rowid
    let more := get_features loaded rest d.2
    (d.1 ++ more.1, more.2)

/-- The synthetic ids of a record list, in emission order. -/
def recIds (recs : List FeatureRecord) : List ℕ :=
  recs.map (fun r => r.count)

lemma get_data_go_ids (lname : String) (fields : List String) :
    ∀ (feats : List Feature) (rowid : ℕ),
      recIds (get_data_go lname fields feats rowid).1
          = List.range' (rowid + 1) (get_data_go lname fields feats rowid).1.length
        ∧ (get_data_go lname fields feats rowid).2
          = rowid + (get_data_go lname fields feats rowid).1.length
  | [], rowid => by simp [get_data_go, recIds]
  | f :: fs, rowid => by
    simp only [get_data_go]
    by_cases h :
        (fields.map (fun field => (quoteId field, field ++ ": " ++ featureValue f field))).isEmpty
    · rw [if_pos h]
      exact get_data_go_ids lname fields fs rowid
    · rw [if_neg h]
      have ih := get_data_go_ids lname fields fs (rowid + 1)
      simp only [recIds, List.map_cons, List.length_cons] at ih ⊢
      refine ⟨?_, ?_⟩
      · rw [ih.1, List.range'_succ]
      · rw [ih.2]
        omega

lemma get_data_ids (layer : Layer) (cols : List String) (rowid : ℕ) :
    recIds (get_data layer cols rowid).1
        = List.range' (rowid + 1) (get_data layer cols rowid).1.length
      ∧ (get_data layer cols rowid).2
        = rowid + (get_data layer cols rowid).1.length := by
  unfold get_data
  by_cases h : (intersectFields layer.fields cols).isEmpty
  · rw [if_pos h]; simp [recIds]
  · rw [if_neg h]
    exact get_data_go_ids layer.name (intersectFields layer.fields cols) layer.features rowid

lemma ids_append_range {r1 r2 : List FeatureRecord} {rowid : ℕ}
    (h1 : recIds r1 = List.range' (rowid + 1) r1.length)
    (h2 : recIds r2 = List.range' (rowid + r1.length + 1) r2.length) :
    recIds (r1 ++ r2) = List.range' (rowid + 1) (r1 ++ r2).length := by
  simp only [recIds, List.map_append, List.length_append] at h1 h2 ⊢
  rw [h1, h2]
  have : rowid + r1.length + 1 = (rowid + 1) + r1.length := by omega
  rw [this, List.range'_append_1, Nat.add_comm r2.length r1.length]

lemma build_all_layers_ids (cols : List String) :
    ∀ (ls : List Layer) (rowid : ℕ),
      recIds (build_all_layers cols ls rowid).1
          = List.range' (rowid + 1) (build_all_layers cols ls rowid).1.length
        ∧ (build_all_layers cols ls rowid).2
          = rowid + (build_all_layers cols ls rowid).1.length
  | [], rowid => by simp [build_all_layers, recIds]
  | l :: ls, rowid => by
    simp only [build_all_layers]
    have hd := get_data_ids l cols rowid
    rw [hd.2]
    have ih := build_all_layers_ids cols ls (rowid + (get_data l cols rowid).1.length)
    refine ⟨ids_append_range hd.1 ih.1, ?_⟩
    simp only [List.length_append]
    rw [ih.2]
    omega

lemma entry_records_ids (loaded : List Layer) (e : ConfigEntry) (rowid : ℕ) :
    recIds (entry_records loaded e rowid).1
        = List.range' (rowid + 1) (entry_records loaded e rowid).1.length
      ∧ (entry_records loaded e rowid).2
        = rowid + (entry_records loaded e rowid).1.length := by
  unfold entry_records
  by_cases h : e.1 = "_all"
  · rw [if_pos h]
    exact build_all_layers_ids e.2 loaded rowid
  · rw [if_neg h]
    cases layer_by_name loaded e.1 with
    | none => simp [recIds]
    | some l => exact get_data_ids l e.2 rowid

lemma get_features_ids (loaded : List Layer) :
    ∀ (cfg : List ConfigEntry) (rowid : ℕ),
      recIds (get_features loaded cfg rowid).1
          = List.range' (rowid + 1) (get_features loaded cfg rowid).1.length
        ∧ (get_features loaded cfg rowid).2
          = rowid + (get_features loaded cfg rowid).1.length
  | [], rowid => by simp [get_features, recIds]
  | e :: rest, rowid => by
    simp only [get_features]
    have hd := entry_records_ids loaded e rowid
    rw [hd.2]
    have ih := get_features_ids loaded rest (rowid + (entry_records loaded e rowid).1.length)
    refine ⟨ids_append_range hd.1 ih.1, ?_⟩
    simp only [List.length_append]
    rw [ih.2]
    omega

/-- C6: within a single build, the synthetic ids of the records emitted by
`get_features` (counter started at 0) are exactly the consecutive sequence
`1, 2, ...` in emission order — one shared counter across all configured
entries and all layers — hence strictly increasing and pairwise distinct. -/
theorem C6_synthetic_ids_strictly_increasing :
    ∀ (loaded : List Layer) (cfg : List ConfigEntry),
      recIds (get_features loaded cfg 0).1
          = List.range' 1 (get_features loaded cfg 0).1.length
        ∧ List.Pairwise (· < ·) (recIds (get_features loaded cfg 0).1) := by
  intro loaded cfg
  have h := (get_features_ids loaded cfg 0).1
  rw [Nat.zero_add] at h
  exact ⟨h, h ▸ List.pairwise_lt_range' 1 _⟩

/-- C9: a configuration entry whose named layer-selector (not the `_all`
sentinel) resolves to no loaded layer is silently skipped: the build
output (records and final counter) over any configuration containing the
entry equals the output over the configuration with the entry removed, so
the entry contributes no records and no error is surfaced. -/
theorem C9_unresolvable_layer_silently_skipped :
    ∀ (loaded : List Layer) (pre : List ConfigEntry) (lname : String)
      (cols : List String) (post : List ConfigEntry) (rowid : ℕ),
      lname ≠ "_all" →
      layer_by_name loaded lname = none →
      get_features loaded (pre ++ (lname, cols) :: post) rowid
        = get_features loaded (pre ++ post) rowid := by
  intro loaded pre lname cols post rowid hall hnone
  have hskip : ∀ r : ℕ, entry_records loaded (lname, cols) r = ([], r) := by
    intro r
    unfold entry_records
    rw [if_neg hall, hnone]
  induction pre generalizing rowid with
  | nil =>
    simp only [List.nil_append]
    rw [get_features, hskip rowid]
    exact rfl
  | cons e pre ih =>
    simp only [List.cons_append]
    rw [get_features, get_features, ih]

/-- C9 (witness): with no layers loaded, the configuration consisting of
one unresolvable named entry builds exactly like the empty
configuration. -/
theorem C9_witness :
    get_features [] [("roads", ["name"])] 0 = get_features [] [] 0 :=
  C9_unresolvable_layer_silently_skipped [] [] "roads" ["name"] [] 0
    (by decide) rfl

/-! ### Query engine (`SearchPlugin.search` / `SearchPlugin.db`, lines 174-248) -/

/-- Embeds Python's `text.split()`: split the character data on whitespace
and drop the empty pieces (splitting on every whitespace character and
discarding empties is exactly whitespace-run splitting). -/
def pySplit (text : String) : List String :=
  ((text.data.splitOnP (fun c => c.isWhitespace)).filter (fun l => !l.isEmpty)).map String.mk

/-- Embeds the construction of the full-text match expression:
`"* ".join(text.split()) + "*"` when the fuzzy box is checked, the literal
text otherwise. -/
def matchExpr (fuzzy : Bool) (text : String) : String :=
  if fuzzy then String.intercalate "* " (pySplit text) ++ "*" else text

/-- A row of the full-text `search` table: its `docid` and its per-column
text values. -/
structure SearchRow where
  docid : ℕ
  cols : List (String × String)
deriving DecidableEq

/-- A row of the `featureinfo` lookup table. -/
structure InfoRow where
  id : ℕ
  layer : String
  featureid : ℤ
deriving DecidableEq

/-- The two-table index artifact. -/
structure IndexDb where
  search : List SearchRow
  featureinfo : List InfoRow
deriving DecidableEq

/-- One row returned by the search query: layer name, feature id, and the
bracket-highlighted snippet. -/
structure SearchResult where
  layer : String
  featureid : ℤ
  snippet : String
deriving DecidableEq

/-- The reason a query against a missing or concurrently rebuilt artifact
fails: the `search` table does not exist, so `c.execute` raises
`sqlite3.OperationalError`. -/
inductive QueryError where
  | noSuchTable
deriving DecidableEq

/-- Observable storage effects of one `search()` call: whether a
connection was opened (the `db` property runs `sqlite3.connect`) and how
many SQL queries were executed. -/
structure SearchTrace where
  connOpened : Bool
  queriesExecuted : ℕ
deriving DecidableEq

/-- Embeds the SQL statement
`SELECT layer, featureid, snippet(search, '[', ']') FROM search JOIN
featureinfo ON search.docid = featureinfo.id WHERE search MATCH expr
LIMIT 100`: the full-text rows satisfying the engine's MATCH predicate, in
table-scan order (the statement has no ORDER BY clause), inner-joined to
the lookup rows with the same id, truncated to 100 rows.  The full-text
engine's matching and snippet highlighting are external to the plugin and
taken as parameters. -/
def runQuery (db : IndexDb) (matchP : SearchRow → Bool) (snip : SearchRow → String) :
    List SearchResult :=
  ((db.search.filter matchP).flatMap (fun r =>
    (db.featureinfo.filter (fun i => i.id == r.docid)).map
      (fun i => ⟨i.layer, i.featureid, snip r⟩))).take 100

/-- Embeds `SearchPlugin.search(text)`.  The first statement, `db =
self.db`, opens a storage connection (and registers the rank function)
unconditionally; the early return on empty text comes after it.  `artifact
= none` models a missing or concurrently rebuilt `index.db` whose `search`
table does not exist: `c.execute` then raises, and since the body contains
no exception handler the error propagates to the caller
(`Except.error`). -/
def searchPluginSearch (artifact : Option IndexDb) (fuzzy : Bool)
    (matchP : String → SearchRow → Bool) (snip : String → SearchRow → String)
    (text : String) : SearchTrace × Except QueryError (List SearchResult) :=
  if text = "" then (⟨true, 0⟩, Except.ok [])
  else
    match artifact with
    | none => (⟨true, 1⟩, Except.error QueryError.noSuchTable)
    | some db =>
      (⟨true, 1⟩,
        Except.ok (runQuery db (matchP (matchExpr fuzzy text)) (snip (matchExpr fuzzy text))))

/-- The weight vector registered for the rank function at query time:
`make_rank_func((1., .1, 0, 0))`. -/
def defaultWeights : List ℚ := [1, 1 / 10, 0, 0]

/-- A two-row index artifact used as a concrete test input. -/
def exDb : IndexDb :=
  ⟨[⟨1, [("\"name\"", "name: foo")]⟩, ⟨2, [("\"name\"", "name: foofoo")]⟩],
    [⟨1, "Roads", 11⟩, ⟨2, "Parks", 22⟩]⟩

/-- Matchinfo blobs (format `[phrases, columns, triple...]`) for the two
rows of `exDb` under a one-term query: the row stored first has one hit,
the row stored second has five, out of ten total hits. -/
def exMatchinfoOf : ℤ → List ℕ := fun fid => if fid = 11 then [1, 1, 1, 10, 1] else [1, 1, 5, 10, 1]

/-- C2 (counterexample): the query executed by `search` has no ORDER BY
clause, so rows come back in table order.  On `exDb` the two returned
rows appear with the first-stored row first although its rank under the
default weight vector is strictly smaller than the second row's rank
(1/10 < 1/2): the result is not in descending-rank order. -/
theorem C2_counterexample :
    (searchPluginSearch (some exDb) false (fun _ _ => true) (fun _ _ => "[foo]") "foo").2
        = Except.ok [⟨"Roads", 11, "[foo]"⟩, ⟨"Parks", 22, "[foo]"⟩]
      ∧ rank defaultWeights (exMatchinfoOf 11) < rank defaultWeights (exMatchinfoOf 22)
      ∧ ¬ List.Pairwise
          (fun a b : SearchResult =>
            rank defaultWeights (exMatchinfoOf b.featureid)
              ≤ rank defaultWeights (exMatchinfoOf a.featureid))
          [⟨"Roads", 11, "[foo]"⟩, ⟨"Parks", 22, "[foo]"⟩] := by
  refine ⟨rfl, ?_, ?_⟩
  · norm_num [rank, groupTriples, defaultWeights, exMatchinfoOf]
  · intro h
    have := (List.pairwise_cons.mp h).1 _ (List.mem_cons_self _ _)
    norm_num [rank, groupTriples, defaultWeights, exMatchinfoOf] at this

lemma runQuery_length_le (db : IndexDb) (matchP : SearchRow → Bool)
    (snip : SearchRow → String) : (runQuery db matchP snip).length ≤ 100 := by
  unfold runQuery
  simp only [List.length_take]
  exact Nat.min_le_left _ _

/-- C2 (amended): for every query text and index contents, `search`
returns at most 100 rows; the rows are returned in the order produced by
the match scan and join (the statement has no ORDER BY clause, and the
registered rank function is never referenced by it), not ordered by
rank. -/
theorem C2_at_most_100_rows :
    ∀ (artifact : Option IndexDb) (fuzzy : Bool) (matchP : String → SearchRow → Bool)
      (snip : String → SearchRow → String) (text : String) (rs : List SearchResult),
      (searchPluginSearch artifact fuzzy matchP snip text).2 = Except.ok rs →
      rs.length ≤ 100 := by
  intro artifact fuzzy matchP snip text rs h
  unfold searchPluginSearch at h
  by_cases ht : text = ""
  · rw [if_pos ht] at h
    cases h
    exact Nat.zero_le 100
  · rw [if_neg ht] at h
    cases artifact with
    | none => exact Except.noConfusion h
    | some db =>
      cases h
      exact runQuery_length_le db _ _

/-- C2 (witness for the amended theorem): the concrete two-row query on
`exDb` returns a list of length at most 100. -/
theorem C2_at_most_100_rows_witness :
    ([⟨"Roads", 11, "[foo]"⟩, ⟨"Parks", 22, "[foo]"⟩] : List SearchResult).length ≤ 100 :=
  C2_at_most_100_rows (some exDb) false (fun _ _ => true) (fun _ _ => "[foo]") "foo"
    [⟨"Roads", 11, "[foo]"⟩, ⟨"Parks", 22, "[foo]"⟩] rfl

/-- C3 (counterexample): querying a missing artifact (`search` table
absent, e.g. mid-rebuild) makes `search` raise: the result is the
propagated error, not the empty result set the claim requires. -/
theorem C3_counterexample :
    (searchPluginSearch none false (fun _ _ => true) (fun _ _ => "") "hydrant").2
        = Except.error QueryError.noSuchTable
      ∧ (searchPluginSearch none false (fun _ _ => true) (fun _ _ => "") "hydrant").2
        ≠ Except.ok [] :=
  ⟨rfl, fun h => Except.noConfusion h⟩

/-- C3 (amended): for every non-empty query text, a storage failure while
executing the query (missing or concurrently rebuilt artifact) propagates
out of `search` as an exception — the body has no handler — instead of
being recovered into an empty result set. -/
theorem C3_query_failure_propagates :
    ∀ (fuzzy : Bool) (matchP : String → SearchRow → Bool)
      (snip : String → SearchRow → String) (text : String),
      text ≠ "" →
      (searchPluginSearch none fuzzy matchP snip text).2
        = Except.error QueryError.noSuchTable := by
  intro fuzzy matchP snip text ht
  unfold searchPluginSearch
  rw [if_neg ht]

/-- C3 (witness for the amended theorem). -/
theorem C3_witness :
    (searchPluginSearch none true (fun _ _ => false) (fun _ _ => "") "x").2
      = Except.error QueryError.noSuchTable :=
  C3_query_failure_propagates true (fun _ _ => false) (fun _ _ => "") "x" (by decide)

/-- C4 (counterexample): on empty query text `search` does return an
empty result set and executes no query, but it opens a storage connection
first — `db = self.db` runs before the `if not text: return` check — so
"no storage connection is opened" is false. -/
theorem C4_counterexample :
    (searchPluginSearch (some exDb) false (fun _ _ => true) (fun _ _ => "") "").1.connOpened
        = true
      ∧ (searchPluginSearch (some exDb) false (fun _ _ => true) (fun _ _ => "") "").2
        = Except.ok [] :=
  ⟨rfl, rfl⟩

/-- C4 (amended): for empty query text, `search` returns an empty result
set immediately and executes no SQL query against the index — but a
storage connection is opened (the `db` property runs before the check),
for every index artifact state. -/
theorem C4_empty_text_no_query_but_connection :
    ∀ (artifact : Option IndexDb) (fuzzy : Bool) (matchP : String → SearchRow → Bool)
      (snip : String → SearchRow → String),
      searchPluginSearch artifact fuzzy matchP snip ""
        = (⟨true, 0⟩, Except.ok []) := by
  intro artifact fuzzy matchP snip
  unfold searchPluginSearch
  rw [if_pos rfl]

lemma star_space_split : ("* " : String) = "*" ++ " " := by decide

lemma intercalate_go_star :
    ∀ (as : List String) (acc : String),
      String.intercalate.go acc "* " as ++ "*"
        = String.intercalate.go (acc ++ "*") " " (as.map (fun t => t ++ "*"))
  | [], _ => rfl
  | a :: as, acc => by
    show String.intercalate.go (acc ++ "* " ++ a) "* " as ++ "*"
        = String.intercalate.go (acc ++ "*" ++ " " ++ (a ++ "*")) " " (as.map (fun t => t ++ "*"))
    rw [intercalate_go_star as (acc ++ "* " ++ a)]
    congr 1
    simp only [String.append_assoc, star_space_split]

/-- C8: with fuzzy off the literal text is the match expression; with
fuzzy on, the text is whitespace-tokenized and, whenever there is at least
one token, the expression is exactly the tokens each suffixed with the
wildcard `*`, joined by spaces — which the full-text engine reads as the
conjunction of prefix terms; in particular `"main str"` is rewritten to
`"main* str*"` (`main* AND str*`). -/
theorem C8_fuzzy_tokenized_prefix_match :
    ∀ text : String,
      matchExpr false text = text
      ∧ (pySplit text ≠ [] →
          matchExpr true text
            = String.intercalate " " ((pySplit text).map (fun t => t ++ "*")))
      ∧ matchExpr true "main str" = "main* str*" := by
  intro text
  refine ⟨rfl, fun h => ?_, by decide⟩
  unfold matchExpr
  rw [if_pos rfl]
  cases hts : pySplit text with
  | nil => exact absurd hts h
  | cons a as =>
    show String.intercalate.go a "* " as ++ "*"
        = String.intercalate.go (a ++ "*") " " (as.map (fun t => t ++ "*"))
    exact intercalate_go_star as a

/-- C8 (witness): the fuzzy rewriting of `"main str"` matches the
claimed tokenized-prefix form. -/
theorem C8_witness :
    matchExpr true "main str"
      = String.intercalate " " ((pySplit "main str").map (fun t => t ++ "*")) :=
  (C8_fuzzy_tokenized_prefix_match "main str").2.1 (by decide)

lemma splitOnP_all_whitespace :
    ∀ l : List Char, (∀ a ∈ l, a.isWhitespace = true) →
      l.splitOnP (fun c => c.isWhitespace) = List.replicate (l.length + 1) [] := by
  intro l
  induction l with
  | nil => intro _; simp
  | cons a l ih =>
    intro h
    rw [List.splitOnP_cons, if_pos (h a (List.mem_cons_self a l)),
      ih (fun b hb => h b (List.mem_cons_of_mem a hb))]
    rfl

lemma pySplit_eq_nil_of_whitespace (text : String)
    (h : ∀ c ∈ text.data, c.isWhitespace = true) : pySplit text = [] := by
  unfold pySplit
  rw [splitOnP_all_whitespace text.data h]
  have hf : (List.replicate (text.data.length + 1) ([] : List Char)).filter
      (fun l => !l.isEmpty) = [] := by
    refine List.filter_eq_nil_iff.mpr (fun a ha => ?_)
    rw [List.eq_of_mem_replicate ha]
    simp
  rw [hf]
  rfl

/-- C10: a non-empty, all-whitespace query text with fuzzy on does not
take the empty-text early return; whitespace-splitting yields no tokens,
so the constructed match expression is the bare wildcard string `"*"`, one
query is executed against the index, and the result is the (limit-capped)
match of `"*"`, not the empty result set. -/
theorem C10_whitespace_text_runs_bare_wildcard_query :
    ∀ (db : IndexDb) (matchP : String → SearchRow → Bool)
      (snip : String → SearchRow → String) (text : String),
      text ≠ "" →
      (∀ c ∈ text.data, c.isWhitespace = true) →
      matchExpr true text = "*"
      ∧ (searchPluginSearch (some db) true matchP snip text).1.queriesExecuted = 1
      ∧ (searchPluginSearch (some db) true matchP snip text).2
          = Except.ok (runQuery db (matchP "*") (snip "*")) := by
  intro db matchP snip text ht hw
  have hexpr : matchExpr true text = "*" := by
    unfold matchExpr
    rw [if_pos rfl, pySplit_eq_nil_of_whitespace text hw]
    rfl
  refine ⟨hexpr, ?_, ?_⟩
  · unfold searchPluginSearch
    rw [if_neg ht]
  · unfold searchPluginSearch
    rw [if_neg ht]
    show Except.ok (runQuery db (matchP (matchExpr true text)) (snip (matchExpr true text)))
        = Except.ok (runQuery db (matchP "*") (snip "*"))
    rw [hexpr]

/-- C10 (witness): the single-space query text with fuzzy on. -/
theorem C10_witness :
    matchExpr true " " = "*"
      ∧ SearchTrace.queriesExecuted
          (searchPluginSearch (some exDb) true (fun _ _ => true) (fun _ _ => "s") " ").1 = 1
      ∧ (searchPluginSearch (some exDb) true (fun _ _ => true) (fun _ _ => "s") " ").2
          = Except.ok (runQuery exDb ((fun _ _ => true) "*") ((fun _ _ => "s") "*")) :=
  C10_whitespace_text_runs_bare_wildcard_query exDb (fun _ _ => true) (fun _ _ => "s") " "
    (by decide) (by decide)

end RoamSearch
